import Mathlib

/-!
Shallow embedding of the Lava runtime coordination layer:
`src/lava/magma/runtime/runtime.py` (the `Runtime` controller) and
`src/lava/magma/runtime/runtime_service.py` (`LoihiPyRuntimeService` and
`AsyncPyRuntimeService`).

Channel words are modelled as integers (`Token`); channels are modelled as
lists of words; each Python method becomes a pure Lean function threading the
relevant object state explicitly.  Exceptions become explicit `Bool`/`Option`
outcomes.  Numpy `enum_equal` is integer equality on the single word.
-/

/-- A single fixed-width word on a management channel. -/
abbrev Token := Int

namespace MGMT_COMMAND

/-- Modelled from the spec: the command token set (section 4.1).  The module
`mgmt_token_enums.py` is not under `src`; the spec requires only that command
tokens, response tokens and step counts are mutually distinguishable words. -/
def RUN : Token := 0

def STOP : Token := -1

def PAUSE : Token := -2

def GET_DATA : Token := -3

def SET_DATA : Token := -4

end MGMT_COMMAND

namespace MGMT_RESPONSE

/-- Modelled from the spec: the response token set (section 4.1), disjoint
use sites from the command set (they travel on the upward channels). -/
def DONE : Token := 0

def TERMINATED : Token := -1

def ERROR : Token := -2

def PAUSED : Token := -3

def REQ_PAUSE : Token := -4

def REQ_STOP : Token := -5

end MGMT_RESPONSE

namespace LoihiPyRuntimeService

namespace Phase

/-- `LoihiPyRuntimeService.Phase` (runtime_service.py lines 81-86). -/
def SPK : Token := 1

def PRE_MGMT : Token := 2

def LRN : Token := 3

def POST_MGMT : Token := 4

def HOST : Token := 5

end Phase

namespace PMResponse

/-- `LoihiPyRuntimeService.PMResponse` (runtime_service.py lines 88-106). -/
def STATUS_DONE : Token := 0

def STATUS_TERMINATED : Token := -1

def STATUS_ERROR : Token := -2

def STATUS_PAUSED : Token := -3

def REQ_PRE_LRN_MGMT : Token := -4

def REQ_LEARNING : Token := -5

def REQ_POST_LRN_MGMT : Token := -6

def REQ_PAUSE : Token := -7

def REQ_STOP : Token := -8

end PMResponse

/-- The mutable flags of a `LoihiPyRuntimeService`
(runtime_service.py `__init__`, lines 71-79). -/
structure State where
  req_pre_lrn_mgmt : Bool
  req_post_lrn_mgmt : Bool
  req_lrn : Bool
  req_stop : Bool
  req_pause : Bool
  paused : Bool
  _error : Bool
deriving Repr, DecidableEq

/-- Service state right after `__init__`: every flag `False`. -/
def initState : State :=
  ⟨false, false, false, false, false, false, false⟩

/-- `LoihiPyRuntimeService._next_phase` (runtime_service.py lines 108-131):
returns the updated flag state and the phase token chosen. -/
def _next_phase (s : State) (is_last_time_step : Bool) : State × Token :=
  if s.req_pre_lrn_mgmt then ({ s with req_pre_lrn_mgmt := false }, Phase.PRE_MGMT)
  else if s.req_post_lrn_mgmt then ({ s with req_post_lrn_mgmt := false }, Phase.POST_MGMT)
  else if s.req_lrn then ({ s with req_lrn := false }, Phase.LRN)
  else if s.req_pause then ({ s with req_pause := false }, MGMT_COMMAND.PAUSE)
  else if s.req_stop then ({ s with req_stop := false }, MGMT_COMMAND.STOP)
  else if is_last_time_step then (s, Phase.HOST)
  else (s, Phase.SPK)

/-- The body of the `for recv_msg in rcv_msgs` loop of `_get_pm_resp`
(runtime_service.py lines 154-172): six independent `if` tests on one
received message. -/
def flagUpdate (s : State) (recv_msg : Token) : State :=
  let s1 := if recv_msg = PMResponse.STATUS_ERROR then { s with _error := true } else s
  let s2 := if recv_msg = PMResponse.REQ_PRE_LRN_MGMT then
    { s1 with req_pre_lrn_mgmt := true } else s1
  let s3 := if recv_msg = PMResponse.REQ_POST_LRN_MGMT then
    { s2 with req_post_lrn_mgmt := true } else s2
  let s4 := if recv_msg = PMResponse.REQ_LEARNING then { s3 with req_lrn := true } else s3
  let s5 := if recv_msg = PMResponse.REQ_PAUSE then { s4 with req_pause := true } else s4
  if recv_msg = PMResponse.REQ_STOP then { s5 with req_stop := true } else s5

/-- `LoihiPyRuntimeService._get_pm_resp` (runtime_service.py lines 145-173).
`rcv_msgs` holds one received message per driven worker, in port order.
The source's `return rcv_msgs` statement sits INSIDE the
`for recv_msg in rcv_msgs` loop, so the function returns after examining only
the first message; this embedding reproduces that faithfully (only the head
of the list reaches `flagUpdate`).  With zero workers the Python function
returns `None`; the claims only concern at least one worker. -/
def _get_pm_resp (s : State) (rcv_msgs : List Token) : State × List Token :=
  match rcv_msgs with
  | [] => (s, [])
  | m :: _ => (flagUpdate s m, rcv_msgs)

/-- Accumulated observables of one pass through the step loop of
`LoihiPyRuntimeService.run` (runtime_service.py lines 260-318).
`trace` records each phase/command token fanned to every worker (one entry
per broadcast); `upward` records the tokens sent to the runtime;
`collectRounds` counts the `_get_pm_resp` calls; `respConsumed` counts the
worker messages received; `pending` is the still-unconsumed suffix of the
controller command channel; `round` indexes the worker-response oracle. -/
structure LoopAcc where
  st : State
  curr_time_step : Nat
  round : Nat
  pending : List Token
  trace : List Token
  upward : List Token
  collectRounds : Nat
  respConsumed : Nat
deriving Repr, DecidableEq

/-- How one pass of the step loop ended. -/
inductive LoopExit where
  | hostBreak
  | reqStopBreak
  | reqPauseBreak
  | ctrlStopReturn
  | ctrlPauseBreak
  | errorReturn
  | badResponse
  | fuelOut
deriving Repr, DecidableEq

/-- `LoihiPyRuntimeService._handle_stop` (runtime_service.py lines 221-232)
as invoked from the step loop: fan `STOP`, collect one response per worker
through `_get_pm_resp`, require `STATUS_TERMINATED` from all (else the
`ValueError` is `badResponse`), then send `TERMINATED` upward and join. -/
def handleStopLoop (wresp : Nat → List Token) (a : LoopAcc) : LoopAcc × LoopExit :=
  let msgs := wresp a.round
  let su := _get_pm_resp a.st msgs
  let a1 : LoopAcc :=
    { a with st := su.1, round := a.round + 1,
             trace := a.trace ++ [MGMT_COMMAND.STOP],
             collectRounds := a.collectRounds + 1,
             respConsumed := a.respConsumed + msgs.length }
  if su.2.all (fun r => r = PMResponse.STATUS_TERMINATED) then
    ({ a1 with upward := a1.upward ++ [MGMT_RESPONSE.TERMINATED] }, LoopExit.ctrlStopReturn)
  else (a1, LoopExit.badResponse)

/-- `LoihiPyRuntimeService._handle_pause` (runtime_service.py lines 210-219)
as invoked from the step loop, followed by `self.paused = True` and `break`
(lines 304-308). -/
def handlePauseLoop (wresp : Nat → List Token) (a : LoopAcc) : LoopAcc × LoopExit :=
  let msgs := wresp a.round
  let su := _get_pm_resp a.st msgs
  let a1 : LoopAcc :=
    { a with st := su.1, round := a.round + 1,
             trace := a.trace ++ [MGMT_COMMAND.PAUSE],
             collectRounds := a.collectRounds + 1,
             respConsumed := a.respConsumed + msgs.length }
  if su.2.all (fun r => r = PMResponse.STATUS_PAUSED) then
    ({ a1 with st := { a1.st with paused := true },
               upward := a1.upward ++ [MGMT_RESPONSE.PAUSED] }, LoopExit.ctrlPauseBreak)
  else (a1, LoopExit.badResponse)

/-- The inner `while True` step loop of `LoihiPyRuntimeService.run`
(runtime_service.py lines 266-313), with `num_steps` the received command,
`wresp` the oracle giving the worker responses of each collection round
(one message per driven worker, in port order), and explicit fuel for
termination.  Each iteration: compute `is_last_ts`, advance the phase,
send `REQ_STOP`/`REQ_PAUSE` upward and break on a pending stop/pause,
increment the time step on `SPK`, fan the phase, collect responses when the
phase is not `HOST` (forwarding `ERROR` and fanning `STOP` if the error
latch is set), consume a pending controller `STOP`/`PAUSE`, and break after
a `HOST` fan. -/
def stepLoop (wresp : Nat → List Token) (num_steps : Nat) :
    Nat → LoopAcc → LoopAcc × LoopExit
  | 0, a => (a, LoopExit.fuelOut)
  | fuel + 1, a =>
    let is_last_ts : Bool := a.curr_time_step = num_steps
    let sp := _next_phase a.st is_last_ts
    let phase := sp.2
    if phase = MGMT_COMMAND.STOP then
      ({ a with st := sp.1, upward := a.upward ++ [MGMT_RESPONSE.REQ_STOP] },
        LoopExit.reqStopBreak)
    else if phase = MGMT_COMMAND.PAUSE then
      ({ a with st := sp.1, upward := a.upward ++ [MGMT_RESPONSE.REQ_PAUSE] },
        LoopExit.reqPauseBreak)
    else
      let curr := if phase = Phase.SPK then a.curr_time_step + 1 else a.curr_time_step
      let a1 : LoopAcc := { a with st := sp.1, curr_time_step := curr,
                                   trace := a.trace ++ [phase] }
      let a2 : LoopAcc :=
        if phase = Phase.HOST then a1
        else
          let msgs := wresp a1.round
          let su := _get_pm_resp a1.st msgs
          { a1 with st := su.1, round := a1.round + 1,
                    collectRounds := a1.collectRounds + 1,
                    respConsumed := a1.respConsumed + msgs.length }
      if phase ≠ Phase.HOST ∧ a2.st._error = true then
        ({ a2 with upward := a2.upward ++ [MGMT_RESPONSE.ERROR],
                   trace := a2.trace ++ [MGMT_COMMAND.STOP] }, LoopExit.errorReturn)
      else
        match a2.pending with
        | cmd :: rest =>
          if cmd = MGMT_COMMAND.STOP then
            handleStopLoop wresp { a2 with pending := rest }
          else if cmd = MGMT_COMMAND.PAUSE then
            handlePauseLoop wresp { a2 with pending := rest }
          else if phase = Phase.HOST then (a2, LoopExit.hostBreak)
          else stepLoop wresp num_steps fuel a2
        | [] =>
          if phase = Phase.HOST then (a2, LoopExit.hostBreak)
          else stepLoop wresp num_steps fuel a2

/-- The handling of one step-count command inside `LoihiPyRuntimeService.run`
(the final `else` branch, runtime_service.py lines 260-318): reset `paused`,
run the step loop from `curr_time_step = 0`, and send `DONE` upward unless
the loop ended paused or on a `STOP`/`PAUSE` phase (or returned out of
`run` entirely on error or a controller stop). -/
def runCommand (wresp : Nat → List Token) (pending : List Token) (s0 : State)
    (num_steps : Nat) (fuel : Nat) : LoopAcc × LoopExit :=
  let a0 : LoopAcc :=
    ⟨{ s0 with paused := false }, 0, 0, pending, [], [], 0, 0⟩
  let r := stepLoop wresp num_steps fuel a0
  if r.2 = LoopExit.hostBreak ∧ r.1.st.paused = false then
    ({ r.1 with upward := r.1.upward ++ [MGMT_RESPONSE.DONE] }, r.2)
  else r

end LoihiPyRuntimeService

namespace Runtime

/-- The flag state of the `Runtime` controller (runtime.py `__init__`,
lines 48-65).  `mi` records whether `_messaging_infrastructure` holds an
object (it is `None` after `__init__` and is set by
`_build_message_infrastructure` during `initialize`). -/
structure RState where
  _is_initialized : Bool
  _is_started : Bool
  _is_running : Bool
  _req_paused : Bool
  _req_stop : Bool
  _error : Bool
  mi : Bool
deriving Repr, DecidableEq

/-- Controller state right after `__init__`: every flag `False`, no
messaging infrastructure. -/
def rInit : RState := ⟨false, false, false, false, false, false, false⟩

/-- Observables of one `Runtime.stop()` call (runtime.py lines 297-314).
`flags` is the controller state at exit; `sentStopToAll` says the `STOP`
fan-out loop ran; `raisedProtocol` is the `RuntimeError` on a
non-`TERMINATED` reply; `infraStopCalled` says
`self._messaging_infrastructure.stop()` actually ran in the `finally`
block; `raisedAttr` is the `AttributeError` from dereferencing a `None`
infrastructure handle there. -/
structure StopResult where
  flags : RState
  sentStopToAll : Bool
  joined : Bool
  raisedProtocol : Bool
  printedNotStarted : Bool
  infraStopCalled : Bool
  raisedAttr : Bool
deriving Repr, DecidableEq

/-- `Runtime.stop` (runtime.py lines 297-314).  `drain` holds the replies of
the services on `service_to_runtime`, in port order; the code raises at the
first reply that is not `TERMINATED`, skipping `join` and the flag clears.
The `finally` block runs on every path and dereferences the infrastructure
handle, so with `mi = false` it raises an `AttributeError` instead of
stopping the infrastructure. -/
def stop (s : RState) (drain : List Token) : StopResult :=
  if s._is_started then
    if drain.all (fun d => d = MGMT_RESPONSE.TERMINATED) then
      { flags := { s with _is_running := false, _is_started := false },
        sentStopToAll := true, joined := true, raisedProtocol := false,
        printedNotStarted := false, infraStopCalled := s.mi, raisedAttr := !s.mi }
    else
      { flags := s, sentStopToAll := true, joined := false, raisedProtocol := true,
        printedNotStarted := false, infraStopCalled := s.mi, raisedAttr := !s.mi }
  else
    { flags := s, sentStopToAll := false, joined := false, raisedProtocol := false,
      printedNotStarted := true, infraStopCalled := s.mi, raisedAttr := !s.mi }

/-- `Runtime.pause` (runtime.py lines 271-295).  `drain` holds the services'
replies; a reply that is neither `PAUSED` nor `ERROR` is silently ignored by
the source.  On the first `ERROR` reply the code joins the actors, calls
`stop()` (with `stopDrain` as its replies) and raises, so `_is_running` is
then cleared only through `stop`.  Returns the exit state and whether the
call raised. -/
def pause (s : RState) (drain : List Token) (stopDrain : List Token) :
    RState × Bool :=
  if s._is_running then
    if drain.any (fun d => d = MGMT_RESPONSE.ERROR) then
      ((stop s stopDrain).flags, true)
    else ({ s with _is_running := false }, false)
  else (s, false)

/-- The response drain loop of `Runtime._get_resp_for_run` (runtime.py lines
213-232), folded over the services' replies: `REQ_PAUSE` sets `_req_paused`,
`REQ_STOP` sets `_req_stop`, `DONE` is ignored, `ERROR` joins the actors and
sets `_error`, and any other token raises immediately (fourth component),
abandoning the rest of the drain. -/
def drainRunResp : List Token → Bool → Bool → Bool → Bool × Bool × Bool × Bool
  | [], rp, rs, er => (rp, rs, er, false)
  | d :: rest, rp, rs, er =>
    if d = MGMT_RESPONSE.REQ_PAUSE then drainRunResp rest true rs er
    else if d = MGMT_RESPONSE.REQ_STOP then drainRunResp rest rp true er
    else if d = MGMT_RESPONSE.DONE then drainRunResp rest rp rs er
    else if d = MGMT_RESPONSE.ERROR then drainRunResp rest rp rs true
    else (rp, rs, er, true)

/-- The channel replies consumed by one `_get_resp_for_run` call and the
calls it may make in turn: its own drain, the drains of a `pause()` it
triggers (including the `stop()` on pause's error path), and the drain of a
`stop()` it triggers. -/
structure RespEnv where
  drain : List Token
  pauseDrain : List Token
  pauseStopDrain : List Token
  stopDrain : List Token
deriving Repr, DecidableEq

/-- The statements of `Runtime._get_resp_for_run` after its drain loop
(runtime.py lines 233-244): service a pending pause request through
`pause()`, a pending stop request through `stop()`, raise if the error latch
is set, else clear `_is_running`; any raise skips the remaining statements. -/
def respTail (s1 : RState) (e : RespEnv) : RState × Bool :=
  let p :=
    if s1._req_paused then
      pause { s1 with _req_paused := false } e.pauseDrain e.pauseStopDrain
    else (s1, false)
  if p.2 then p
  else
    let t :=
      if p.1._req_stop then
        let r := stop { p.1 with _req_stop := false } e.stopDrain
        (r.flags, r.raisedProtocol || r.raisedAttr)
      else (p.1, false)
    if t.2 then t
    else if t.1._error then (t.1, true)
    else ({ t.1 with _is_running := false }, false)

/-- `Runtime._get_resp_for_run` (runtime.py lines 208-244).  Returns the
exit state and whether the call raised.  A raise anywhere skips the
remaining statements, in particular the final `_is_running = False`. -/
def _get_resp_for_run (s : RState) (e : RespEnv) : RState × Bool :=
  if s._is_running then
    let q := drainRunResp e.drain s._req_paused s._req_stop s._error
    let s1 : RState := { s with _req_paused := q.1, _req_stop := q.2.1,
                                _error := q.2.2.1 }
    if q.2.2.2 then (s1, true)
    else respTail s1 e
  else (s, false)

/-- The run conditions dispatched on by `Runtime._run` (runtime.py lines
246-263): `RunSteps` with its blocking flag, `RunContinuous`, or any other
object (which raises a `ValueError`). -/
inductive RunCondition where
  | runSteps (num_steps : Nat) (blocking : Bool)
  | runContinuous
  | unknownCondition
deriving Repr, DecidableEq

/-- `Runtime._run` (runtime.py lines 246-263).  Sets `_is_running` before
dispatching, so an unknown condition raises with `_is_running` already
true; a non-started runtime only prints. -/
def _run (s : RState) (rc : RunCondition) (e : RespEnv) : RState × Bool :=
  if s._is_started then
    let s1 : RState := { s with _is_running := true }
    match rc with
    | RunCondition.runSteps _ blocking =>
      if blocking then _get_resp_for_run s1 e else (s1, false)
    | RunCondition.runContinuous => (s1, false)
    | RunCondition.unknownCondition => (s1, true)
  else (s, false)

/-- `Runtime.start` (runtime.py lines 200-206): requires `_is_initialized`,
sets `_is_started`, then calls `_run`; otherwise only prints. -/
def start (s : RState) (rc : RunCondition) (e : RespEnv) : RState × Bool :=
  if s._is_initialized then _run { s with _is_started := true } rc e
  else (s, false)

/-- `Runtime.initialize` (runtime.py lines 74-96).  `cfgOk` is the node
configuration check (a failure raises `AssertionError` before anything is
built); `buildOk` covers the channel/process/service build steps after
`_build_message_infrastructure` (a failure there raises with the
infrastructure already created but `_is_initialized` still false). -/
def initRuntime (s : RState) (cfgOk buildOk : Bool) : RState × Bool :=
  if cfgOk then
    let s1 : RState := { s with mi := true }
    if buildOk then ({ s1 with _is_initialized := true }, false)
    else (s1, true)
  else (s, true)

/-- One controller operation together with the environment (channel replies,
configuration outcomes) it consumes.  `opGetVar`/`opSetVar` never write any
controller flag (runtime.py lines 323-397 only read `_is_started`). -/
inductive RTOp where
  | opInit (cfgOk buildOk : Bool)
  | opStart (rc : RunCondition) (e : RespEnv)
  | opWait (e : RespEnv)
  | opPause (drain stopDrain : List Token)
  | opStop (drain : List Token)
  | opGetVar
  | opSetVar
deriving Repr, DecidableEq

/-- The controller flag state after one public operation, normal or
exceptional exit alike (an exception leaves the partially updated state). -/
def applyOp (s : RState) : RTOp → RState
  | RTOp.opInit c b => (initRuntime s c b).1
  | RTOp.opStart rc e => (start s rc e).1
  | RTOp.opWait e => (_get_resp_for_run s e).1
  | RTOp.opPause d sd => (pause s d sd).1
  | RTOp.opStop d => (stop s d).flags
  | RTOp.opGetVar => s
  | RTOp.opSetVar => s

/-- The controller flag state after a whole sequence of operations. -/
def execOps (s : RState) (ops : List RTOp) : RState :=
  ops.foldl applyOp s

/-- The implication chain `running ⇒ started ⇒ initialized`, as a Boolean
predicate on the controller flags. -/
def rtInv (s : RState) : Bool :=
  (!s._is_running || s._is_started) && (!s._is_started || s._is_initialized)

/-- A numpy array as the runtime uses it: a shape and the row-major flat
data.  Payload words stand for the 64-bit data words on the wire. -/
structure NDArray where
  shape : List Nat
  data : List Token
deriving Repr, DecidableEq

/-- How the sending half of `get_var`/`set_var` exits. -/
inductive VarOutcome where
  | ok
  | errAsync
  | errNotStarted
deriving Repr, DecidableEq

/-- Outcome of the sending half of `get_var`/`set_var`: the exit kind and
the words put on the service's command channel before that exit. -/
structure VarAccessResult where
  outcome : VarOutcome
  sent : List Token
deriving Repr, DecidableEq

/-- `Runtime.set_var` sending side (runtime.py lines 323-358).  The
asynchronous-service check (lines 330-332) precedes the `_is_started` check
(line 334); both precede any channel traffic.  On the good path the words
sent on the owning service's command channel are `SET_DATA`, `model_id`,
`var_id`, `num_items`, then the row-major flat data (`idx` is `None`). -/
def set_var (s : RState) (isAsync : Bool) (model_id var_id : Int)
    (x : NDArray) : VarAccessResult :=
  if isAsync then ⟨VarOutcome.errAsync, []⟩
  else if s._is_started then
    ⟨VarOutcome.ok,
      [MGMT_COMMAND.SET_DATA, model_id, var_id, (x.data.length : Int)] ++ x.data⟩
  else ⟨VarOutcome.errNotStarted, []⟩

/-- `Runtime.get_var` sending side (runtime.py lines 360-381): same two
guards in the same order, then `GET_DATA`, `model_id`, `var_id`. -/
def get_var_send (s : RState) (isAsync : Bool) (model_id var_id : Int) :
    VarAccessResult :=
  if isAsync then ⟨VarOutcome.errAsync, []⟩
  else if s._is_started then
    ⟨VarOutcome.ok, [MGMT_COMMAND.GET_DATA, model_id, var_id]⟩
  else ⟨VarOutcome.errNotStarted, []⟩

/-- `Runtime.get_var` receiving side (runtime.py lines 383-395): read
`num_items`, read that many payload words into a `(1, num_items)` buffer,
then reshape to the variable's declared shape (`idx` is `None`; numpy's
reshape fails unless the element counts agree, and a short stream blocks). -/
def get_var_recv (shape : List Nat) (stream : List Token) : Option NDArray :=
  match stream with
  | [] => none
  | n :: rest =>
    if n.toNat ≤ rest.length then
      if n.toNat = shape.prod then some ⟨shape, rest.take n.toNat⟩ else none
    else none

end Runtime

namespace LoihiPyRuntimeService

/-- The `SET_DATA` branch of `_handle_get_set` (runtime_service.py lines
330-337) together with `_relay_to_pm_data_given_model_id` (lines 187-199):
after the `SET_DATA` command word, consume `model_id` (used only to pick the
worker port) and `var_id`, forward `SET_DATA` and `var_id` to the addressed
worker, then relay `num_items` and exactly `num_items` payload words.  A
short stream blocks (`none`). -/
def handleSetRelay (stream : List Token) : Option (List Token) :=
  match stream with
  | _model_id :: var_id :: num_items :: rest =>
    if num_items.toNat ≤ rest.length then
      some ([MGMT_COMMAND.SET_DATA, var_id, num_items] ++ rest.take num_items.toNat)
    else none
  | _ => none

/-- The `GET_DATA` branch of `_handle_get_set` (runtime_service.py lines
322-329): consume `model_id` and `var_id`, forward `GET_DATA` and `var_id`
to the addressed worker. -/
def handleGetRelay (stream : List Token) : Option (List Token) :=
  match stream with
  | [_model_id, var_id] => some [MGMT_COMMAND.GET_DATA, var_id]
  | _ => none

/-- `_relay_to_runtime_data_given_model_id` (runtime_service.py lines
175-185): receive `num_items` from the worker, forward it upward, then
relay exactly `num_items` payload words upward. -/
def relayToRuntimeData (fromWorker : List Token) : Option (List Token) :=
  match fromWorker with
  | n :: rest =>
    if n.toNat ≤ rest.length then some (n :: rest.take n.toNat) else none
  | [] => none

end LoihiPyRuntimeService

namespace Worker

/-- Modelled from the spec: worker contract item (5) of section 4.8 for SET
(the per-worker execution bodies are not under `src`, only the abstract
process model is).  A conforming worker consumes the SET trailer and stores
the payload as the new flat value of the addressed variable. -/
def handleSet (req : List Token) : Option (List Token) :=
  match req with
  | cmd :: _var_id :: num_items :: payload =>
    if cmd = MGMT_COMMAND.SET_DATA ∧ payload.length = num_items.toNat then
      some payload
    else none
  | _ => none

/-- Modelled from the spec: worker contract item (5) of section 4.8 for GET
— the worker emits `num_items` followed by the stored flat value. -/
def handleGet (req : List Token) (store : List Token) : Option (List Token) :=
  match req with
  | [cmd, _var_id] =>
    if cmd = MGMT_COMMAND.GET_DATA then some ((store.length : Int) :: store)
    else none
  | _ => none

end Worker

/-- End-to-end `set_var` followed by `get_var` through one Loihi-protocol
service in HOST phase and one conforming worker: the controller sends, the
service relays downward, the worker stores; then the controller requests,
the service relays both ways, and the controller reshapes the returned
payload.  `none` stands for any blocked or failed leg; the controller-side
usage errors surface through the `VarOutcome`. -/
def setGetRoundTrip (s : Runtime.RState) (isAsync : Bool) (shape : List Nat)
    (model_id var_id : Int) (x : Runtime.NDArray) :
    Runtime.VarOutcome × Option Runtime.NDArray :=
  let sv := Runtime.set_var s isAsync model_id var_id x
  match sv.outcome with
  | Runtime.VarOutcome.ok =>
    let gv := Runtime.get_var_send s isAsync model_id var_id
    match gv.outcome with
    | Runtime.VarOutcome.ok =>
      (Runtime.VarOutcome.ok,
        do
          let toWorkerSet ← LoihiPyRuntimeService.handleSetRelay sv.sent.tail
          let store ← Worker.handleSet toWorkerSet
          let toWorkerGet ← LoihiPyRuntimeService.handleGetRelay gv.sent.tail
          let reply ← Worker.handleGet toWorkerGet store
          let upward ← LoihiPyRuntimeService.relayToRuntimeData reply
          Runtime.get_var_recv shape upward)
    | o => (o, none)
  | o => (o, none)

namespace AsyncPyRuntimeService

namespace PMResponse

/-- `AsyncPyRuntimeService.PMResponse` (runtime_service.py lines 355-367). -/
def STATUS_DONE : Token := 0

def STATUS_TERMINATED : Token := -1

def STATUS_ERROR : Token := -2

def STATUS_PAUSED : Token := -3

def REQ_PAUSE : Token := -4

def REQ_STOP : Token := -5

end PMResponse

/-- The mutable flags of an `AsyncPyRuntimeService` (runtime_service.py
`__init__`, lines 349-353). -/
structure AState where
  req_stop : Bool
  req_pause : Bool
  _error : Bool
deriving Repr, DecidableEq

/-- Async service state right after `__init__`. -/
def asyncInit : AState := ⟨false, false, false⟩

/-- One entry of the `channel_actions` list of `AsyncPyRuntimeService.run`:
the controller command port tag or one worker response port tag. -/
inductive ChanTag where
  | cmd
  | resp
deriving Repr, DecidableEq

/-- One selected event of the `run` loop (runtime_service.py lines 399-433)
with the data it consumes: a `STOP` command (with the workers' termination
replies), a `PAUSE` command, any other command word (treated as "run"), or a
worker-response drain (one message per worker, from `_get_pm_resp`). -/
inductive AEvent where
  | cmdStop (stopResps : List Token)
  | cmdPause
  | cmdRun (c : Token)
  | respDrain (msgs : List Token)
deriving Repr, DecidableEq

/-- The `for resp in resps` flag-aggregation loop of the `'resp'` branch
(runtime_service.py lines 417-426): three independent `if` tests per
message, folded over the drained messages. -/
def drainFold (s : AState) (msgs : List Token) : AState :=
  msgs.foldl (fun st m =>
    let st1 := if m = PMResponse.REQ_PAUSE then { st with req_pause := true } else st
    let st2 := if m = PMResponse.REQ_STOP then { st1 with req_stop := true } else st1
    if m = PMResponse.STATUS_ERROR then { st2 with _error := true } else st2) s

/-- Observables of one iteration of the `AsyncPyRuntimeService.run` loop:
the flag state, the `channel_actions` list that the NEXT `select` will wait
on (rebuilt from scratch each iteration, runtime_service.py lines 402,
412-414, 433), the tokens sent upward, whether `run` returned, and whether
it raised. -/
structure AStepResult where
  st : AState
  channel_actions : List ChanTag
  upward : List Token
  terminated : Bool
  raised : Bool
deriving Repr, DecidableEq

/-- One iteration of `AsyncPyRuntimeService.run` (runtime_service.py lines
399-433) for a service with `W` workers, given the selected event.
`channel_actions` is reset to `[]` at the top of the body; the worker
response ports are re-added ONLY in the run-command branch (lines 412-414);
the controller port is re-added at the end of every surviving iteration
(line 433).  `cmdStop` models `_handle_stop` (lines 383-394): all
`STATUS_TERMINATED` sends `TERMINATED` upward and returns, otherwise `ERROR`
is sent upward and a `ValueError` is raised.  `cmdPause` models
`_handle_pause` (lines 379-381).  `respDrain` aggregates the drained
messages into the latches and then sends one upward token per latched
condition (lines 427-432). -/
def asyncStep (W : Nat) (s : AState) (ev : AEvent) : AStepResult :=
  match ev with
  | AEvent.cmdStop stopResps =>
    if stopResps.all (fun r => r = PMResponse.STATUS_TERMINATED) then
      ⟨s, [], [MGMT_RESPONSE.TERMINATED], true, false⟩
    else ⟨s, [], [MGMT_RESPONSE.ERROR], true, true⟩
  | AEvent.cmdPause => ⟨s, [ChanTag.cmd], [MGMT_RESPONSE.PAUSED], false, false⟩
  | AEvent.cmdRun _ =>
    ⟨s, List.replicate W ChanTag.resp ++ [ChanTag.cmd], [], false, false⟩
  | AEvent.respDrain msgs =>
    let s1 := drainFold s msgs
    ⟨s1, [ChanTag.cmd],
      (if s1.req_stop then [MGMT_RESPONSE.REQ_STOP] else []) ++
        (if s1.req_pause then [MGMT_RESPONSE.REQ_PAUSE] else []) ++
        (if s1._error then [MGMT_RESPONSE.ERROR] else []),
      false, false⟩

end AsyncPyRuntimeService

/-- Claim C2: `_next_phase` returns the first applicable outcome in the fixed
priority order pre-management, post-management, learning, pause, stop, then
HOST on the last step and SPK otherwise, clearing exactly the flag it acts
on. -/
theorem c2_next_phase_priority (s : LoihiPyRuntimeService.State) (l : Bool) :
    (s.req_pre_lrn_mgmt = true →
      LoihiPyRuntimeService._next_phase s l =
        ({ s with req_pre_lrn_mgmt := false }, LoihiPyRuntimeService.Phase.PRE_MGMT)) ∧
    (s.req_pre_lrn_mgmt = false → s.req_post_lrn_mgmt = true →
      LoihiPyRuntimeService._next_phase s l =
        ({ s with req_post_lrn_mgmt := false }, LoihiPyRuntimeService.Phase.POST_MGMT)) ∧
    (s.req_pre_lrn_mgmt = false → s.req_post_lrn_mgmt = false → s.req_lrn = true →
      LoihiPyRuntimeService._next_phase s l =
        ({ s with req_lrn := false }, LoihiPyRuntimeService.Phase.LRN)) ∧
    (s.req_pre_lrn_mgmt = false → s.req_post_lrn_mgmt = false → s.req_lrn = false →
      s.req_pause = true →
      LoihiPyRuntimeService._next_phase s l =
        ({ s with req_pause := false }, MGMT_COMMAND.PAUSE)) ∧
    (s.req_pre_lrn_mgmt = false → s.req_post_lrn_mgmt = false → s.req_lrn = false →
      s.req_pause = false → s.req_stop = true →
      LoihiPyRuntimeService._next_phase s l =
        ({ s with req_stop := false }, MGMT_COMMAND.STOP)) ∧
    (s.req_pre_lrn_mgmt = false → s.req_post_lrn_mgmt = false → s.req_lrn = false →
      s.req_pause = false → s.req_stop = false → l = true →
      LoihiPyRuntimeService._next_phase s l = (s, LoihiPyRuntimeService.Phase.HOST)) ∧
    (s.req_pre_lrn_mgmt = false → s.req_post_lrn_mgmt = false → s.req_lrn = false →
      s.req_pause = false → s.req_stop = false → l = false →
      LoihiPyRuntimeService._next_phase s l = (s, LoihiPyRuntimeService.Phase.SPK)) := by
  obtain ⟨a, b, c, d, e, p, err⟩ := s
  cases a <;> cases b <;> cases c <;> cases d <;> cases e <;> cases l <;>
    simp [LoihiPyRuntimeService._next_phase]

/-- Witness for C2: the pre-management case at a concrete state. -/
theorem c2_next_phase_priority_witness :
    LoihiPyRuntimeService._next_phase
        ⟨true, true, false, false, false, false, false⟩ false =
      (⟨false, true, false, false, false, false, false⟩,
        LoihiPyRuntimeService.Phase.PRE_MGMT) :=
  (c2_next_phase_priority ⟨true, true, false, false, false, false, false⟩ false).1 rfl

/-- Claim C4 (code evaluation at the failing input): with two workers whose
responses in one collection round are `[STATUS_DONE, STATUS_ERROR]`,
`_get_pm_resp` leaves the error latch unset, because its `return` statement
sits inside the response loop and only the first message is examined.  The
claim (and the loop structure of the source itself) says the second worker's
`STATUS_ERROR` must set the latch. -/
theorem c4_second_response_ignored :
    ((LoihiPyRuntimeService._get_pm_resp LoihiPyRuntimeService.initState
        [LoihiPyRuntimeService.PMResponse.STATUS_DONE,
         LoihiPyRuntimeService.PMResponse.STATUS_ERROR]).1)._error = false := by
  decide

namespace LoihiPyRuntimeService

/-- A collection round in which every worker answers `STATUS_DONE` leaves the
service flags of a fresh state unchanged. -/
theorem get_pm_resp_all_done (W : Nat) :
    _get_pm_resp initState (List.replicate W PMResponse.STATUS_DONE) =
      (initState, List.replicate W PMResponse.STATUS_DONE) := by
  cases W with
  | zero => rfl
  | succ w =>
    have h : flagUpdate initState PMResponse.STATUS_DONE = initState := by decide
    rw [List.replicate_succ]
    simp [_get_pm_resp, h]

/-- With no pending controller command and every worker answering
`STATUS_DONE` in every round, the step loop starting at time step `cur` with
`n = num_steps - cur` steps left fans exactly `n` `SPK` broadcasts followed by
one `HOST` broadcast, performs one collection round of one message per worker
per `SPK`, sends nothing upward, and exits through the `HOST` break. -/
theorem stepLoop_all_done (W N : Nat) :
    ∀ (n cur k : Nat) (t u : List Token) (c r : Nat), cur + n = N →
      stepLoop (fun _ => List.replicate W PMResponse.STATUS_DONE) N (n + 1)
        ⟨initState, cur, k, [], t, u, c, r⟩ =
      (⟨initState, N, k + n, [],
        t ++ (List.replicate n Phase.SPK ++ [Phase.HOST]), u, c + n, r + W * n⟩,
       LoopExit.hostBreak) := by
  intro n
  induction n with
  | zero =>
    intro cur k t u c r h
    have hc : cur = N := by omega
    subst hc
    simp [stepLoop, _next_phase, initState, Phase.HOST, Phase.SPK,
      MGMT_COMMAND.STOP, MGMT_COMMAND.PAUSE]
  | succ m ih =>
    intro cur k t u c r h
    have hc : ¬ (cur = N) := by omega
    rw [stepLoop]
    simp only [hc, decide_eq_true_eq, if_neg]
    simp only [_next_phase, initState, Bool.false_eq_true, if_false,
      Phase.SPK, Phase.HOST, MGMT_COMMAND.STOP, MGMT_COMMAND.PAUSE,
      get_pm_resp_all_done, List.length_replicate]
    norm_num
    rw [show (⟨false, false, false, false, false, false, false⟩ : State) =
      initState from rfl, get_pm_resp_all_done]
    simp only [List.length_replicate]
    rw [ih (cur + 1) (k + 1) (t ++ [(1 : Int)]) u (c + 1) (r + W) (by omega)]
    simp [initState, Phase.SPK, Phase.HOST, List.replicate_succ,
      LoopAcc.mk.injEq, Prod.mk.injEq, Nat.mul_succ]
    omega

end LoihiPyRuntimeService

/-- Claim C1: a completed stepped-blocking run of `N ≥ 1` steps with `W ≥ 1`
workers in which every worker always answers `STATUS_DONE` fans exactly `N`
`SPK` phase broadcasts followed by exactly one `HOST` broadcast to the
workers, performs exactly `N` response-collection rounds consuming exactly
`W` messages each (one per worker per non-HOST command), and sends exactly
one `DONE` token to the controller. -/
theorem c1_stepped_blocking_run (N W : Nat) (_hN : 1 ≤ N) (_hW : 1 ≤ W) :
    LoihiPyRuntimeService.runCommand
        (fun _ => List.replicate W LoihiPyRuntimeService.PMResponse.STATUS_DONE)
        [] LoihiPyRuntimeService.initState N (N + 1) =
      (⟨LoihiPyRuntimeService.initState, N, N, [],
        List.replicate N LoihiPyRuntimeService.Phase.SPK ++
          [LoihiPyRuntimeService.Phase.HOST],
        [MGMT_RESPONSE.DONE], N, W * N⟩,
       LoihiPyRuntimeService.LoopExit.hostBreak) := by
  unfold LoihiPyRuntimeService.runCommand
  rw [show ({ LoihiPyRuntimeService.initState with paused := false } :
      LoihiPyRuntimeService.State) = LoihiPyRuntimeService.initState from rfl]
  dsimp only
  rw [LoihiPyRuntimeService.stepLoop_all_done W N N 0 0 [] [] 0 0 (by omega)]
  simp [LoihiPyRuntimeService.initState]

/-- Witness for C1: the spec's minimal scenario, one worker and three steps:
trace `SPK, SPK, SPK, HOST`, three single-response collection rounds, one
`DONE` to the controller. -/
theorem c1_stepped_blocking_run_witness :
    LoihiPyRuntimeService.runCommand
        (fun _ => List.replicate 1 LoihiPyRuntimeService.PMResponse.STATUS_DONE)
        [] LoihiPyRuntimeService.initState 3 4 =
      (⟨LoihiPyRuntimeService.initState, 3, 3, [],
        List.replicate 3 LoihiPyRuntimeService.Phase.SPK ++
          [LoihiPyRuntimeService.Phase.HOST],
        [MGMT_RESPONSE.DONE], 3, 1 * 3⟩,
       LoihiPyRuntimeService.LoopExit.hostBreak) :=
  c1_stepped_blocking_run 3 1 (by decide) (by decide)

namespace Runtime

/-- Clearing `_is_running` preserves the implication chain. -/
theorem rtInv_clear_running (s : RState) (h : rtInv s = true) :
    rtInv { s with _is_running := false } = true := by
  simp only [rtInv, Bool.and_eq_true] at *
  exact ⟨by simp, h.2⟩

/-- `stop` preserves the `running ⇒ started ⇒ initialized` chain: it only
ever clears `_is_running` and `_is_started` together. -/
theorem stop_rtInv (s : RState) (d : List Token) (h : rtInv s = true) :
    rtInv (stop s d).flags = true := by
  unfold stop
  split
  · split
    · simp_all [rtInv]
    · simpa using h
  · simpa using h

/-- `pause` preserves the implication chain: it clears `_is_running` or
defers to `stop`. -/
theorem pause_rtInv (s : RState) (d sd : List Token) (h : rtInv s = true) :
    rtInv (pause s d sd).1 = true := by
  unfold pause
  split
  · split
    · exact stop_rtInv s sd h
    · exact rtInv_clear_running s h
  · simpa using h

/-- The tail of `_get_resp_for_run` preserves the implication chain. -/
theorem respTail_rtInv (s1 : RState) (e : RespEnv) (h : rtInv s1 = true) :
    rtInv (respTail s1 e).1 = true := by
  unfold respTail
  dsimp only
  generalize hP : (if s1._req_paused = true then
      pause { s1 with _req_paused := false } e.pauseDrain e.pauseStopDrain
    else (s1, false)) = p
  have hp : rtInv p.1 = true := by
    rw [← hP]
    split
    · exact pause_rtInv _ _ _ h
    · exact h
  split
  · exact hp
  · generalize hT : (if p.1._req_stop = true then
        ((stop { p.1 with _req_stop := false } e.stopDrain).flags,
          (stop { p.1 with _req_stop := false } e.stopDrain).raisedProtocol ||
            (stop { p.1 with _req_stop := false } e.stopDrain).raisedAttr)
      else (p.1, false)) = t
    have ht : rtInv t.1 = true := by
      rw [← hT]
      split
      · exact stop_rtInv _ _ hp
      · exact hp
    split
    · exact ht
    · split
      · exact ht
      · exact rtInv_clear_running _ ht

/-- `_get_resp_for_run` preserves the implication chain: besides the request
flags it only clears `_is_running` or defers to `pause`/`stop`. -/
theorem get_resp_rtInv (s : RState) (e : RespEnv) (h : rtInv s = true) :
    rtInv (_get_resp_for_run s e).1 = true := by
  unfold _get_resp_for_run
  split
  case isFalse => exact h
  case isTrue =>
    dsimp only
    split
    · exact h
    · exact respTail_rtInv _ e h

/-- `_run` preserves the implication chain: it sets `_is_running` only under
`_is_started`. -/
theorem run_rtInv (s : RState) (rc : RunCondition) (e : RespEnv)
    (h : rtInv s = true) : rtInv (_run s rc e).1 = true := by
  unfold _run
  split
  case isFalse => exact h
  case isTrue hst =>
    have h1 : rtInv { s with _is_running := true } = true := by
      have h2 := h
      simp only [rtInv] at h2 ⊢
      simp only [hst] at h2 ⊢
      simpa using h2
    cases rc with
    | runSteps n blocking =>
      cases blocking with
      | false => simpa using h1
      | true => simpa using get_resp_rtInv _ e h1
    | runContinuous => exact h1
    | unknownCondition => exact h1

/-- `start` preserves the implication chain: it sets `_is_started` only under
`_is_initialized`. -/
theorem start_rtInv (s : RState) (rc : RunCondition) (e : RespEnv)
    (h : rtInv s = true) : rtInv (start s rc e).1 = true := by
  unfold start
  split
  case isTrue hini =>
    apply run_rtInv
    simp [rtInv, hini]
  case isFalse => exact h

/-- `initialize` preserves the implication chain: it only ever sets
`_is_initialized` (and the infrastructure handle). -/
theorem init_rtInv (s : RState) (c b : Bool) (h : rtInv s = true) :
    rtInv (initRuntime s c b).1 = true := by
  unfold initRuntime
  split
  · split
    · simp only [rtInv] at h ⊢
      simp only [Bool.and_eq_true] at h
      simp [h.1]
    · simpa [rtInv] using h
  · exact h

/-- Every single controller operation preserves the implication chain. -/
theorem applyOp_rtInv (s : RState) (op : RTOp) (h : rtInv s = true) :
    rtInv (applyOp s op) = true := by
  cases op with
  | opInit c b => exact init_rtInv s c b h
  | opStart rc e => exact start_rtInv s rc e h
  | opWait e => exact get_resp_rtInv s e h
  | opPause d sd => exact pause_rtInv s d sd h
  | opStop d => exact stop_rtInv s d h
  | opGetVar => exact h
  | opSetVar => exact h

/-- The implication chain holds after any operation sequence from any state
satisfying it. -/
theorem execOps_rtInv (ops : List RTOp) :
    ∀ s : RState, rtInv s = true → rtInv (execOps s ops) = true := by
  induction ops with
  | nil => intro s h; exact h
  | cons op rest ih =>
    intro s h
    exact ih (applyOp s op) (applyOp_rtInv s op h)

end Runtime

/-- Claim C3: for every sequence of controller operations (initialize, start,
wait, pause, stop, get_var, set_var, with any channel replies and
configuration outcomes), the chain `_is_running` implies `_is_started`
implies `_is_initialized` holds on the controller flags after every prefix
of the sequence (the state "between operations", normal and exceptional
exits alike). -/
theorem c3_running_started_initialized (ops : List Runtime.RTOp) :
    Runtime.rtInv (Runtime.execOps Runtime.rInit ops) = true :=
  Runtime.execOps_rtInv ops Runtime.rInit rfl

/-- Claim C5: on a controller whose `initialize()` has run (so the
infrastructure handle is set), `stop()` with `started` true fans `STOP` to
every service, raises a protocol error exactly when some service replies
with anything other than `TERMINATED`, and otherwise joins the endpoints and
clears both `running` and `started`; with `started` false it performs none
of these sends; and on every exit path the messaging infrastructure's
`stop()` is invoked. -/
theorem c5_stop_contract (s : Runtime.RState) (d : List Token)
    (hmi : s.mi = true) :
    ((Runtime.stop s d).infraStopCalled = true ∧
      (Runtime.stop s d).raisedAttr = false) ∧
    (s._is_started = true →
      (Runtime.stop s d).sentStopToAll = true ∧
      (Runtime.stop s d).raisedProtocol =
        !(d.all (fun x => x = MGMT_RESPONSE.TERMINATED)) ∧
      (d.all (fun x => x = MGMT_RESPONSE.TERMINATED) = true →
        (Runtime.stop s d).joined = true ∧
        (Runtime.stop s d).flags._is_running = false ∧
        (Runtime.stop s d).flags._is_started = false)) ∧
    (s._is_started = false →
      (Runtime.stop s d).sentStopToAll = false ∧
      (Runtime.stop s d).joined = false ∧
      (Runtime.stop s d).flags = s) := by
  unfold Runtime.stop
  cases hst : s._is_started <;>
    cases hall : d.all (fun x => x = MGMT_RESPONSE.TERMINATED) <;>
      simp [hst, hall, hmi]

/-- Witness for C5: a started, initialized controller whose single service
replies `TERMINATED`: the infrastructure is stopped and `started` ends
false. -/
theorem c5_stop_contract_witness :
    (Runtime.stop ⟨true, true, true, false, false, false, true⟩
        [MGMT_RESPONSE.TERMINATED]).infraStopCalled = true ∧
    (Runtime.stop ⟨true, true, true, false, false, false, true⟩
        [MGMT_RESPONSE.TERMINATED]).flags._is_started = false := by
  have h := c5_stop_contract ⟨true, true, true, false, false, false, true⟩
    [MGMT_RESPONSE.TERMINATED] rfl
  exact ⟨h.1.1, ((h.2.1 rfl).2.2 (by decide)).2.2⟩

/-- Claim C6 (worker side modelled from the spec's worker contract): on a
started runtime whose variable lives on a non-asynchronous service with a
conforming worker, `set_var(v, x)` followed by `get_var(v)` returns the
payload of `x` reshaped to `v`'s declared shape. -/
theorem c6_set_get_round_trip (s : Runtime.RState) (shape : List Nat)
    (model_id var_id : Int) (x : Runtime.NDArray)
    (hs : s._is_started = true) (hc : x.data.length = shape.prod) :
    setGetRoundTrip s false shape model_id var_id x =
      (Runtime.VarOutcome.ok, some ⟨shape, x.data⟩) := by
  unfold setGetRoundTrip Runtime.set_var Runtime.get_var_send
  simp only [hs, if_true, if_false, Bool.false_eq_true]
  simp [LoihiPyRuntimeService.handleSetRelay, Worker.handleSet,
    LoihiPyRuntimeService.handleGetRelay, Worker.handleGet,
    LoihiPyRuntimeService.relayToRuntimeData, Runtime.get_var_recv,
    MGMT_COMMAND.SET_DATA, MGMT_COMMAND.GET_DATA, List.take_length]
  simp [hc]

/-- Witness for C6: the spec's round-trip scenario, shape `[2, 3]` with
payload `[[1,2,3],[4,5,6]]`. -/
theorem c6_set_get_round_trip_witness :
    setGetRoundTrip ⟨true, true, false, false, false, false, true⟩ false
        [2, 3] 0 0 ⟨[2, 3], [1, 2, 3, 4, 5, 6]⟩ =
      (Runtime.VarOutcome.ok, some ⟨[2, 3], [1, 2, 3, 4, 5, 6]⟩) :=
  c6_set_get_round_trip ⟨true, true, false, false, false, false, true⟩
    [2, 3] 0 0 ⟨[2, 3], [1, 2, 3, 4, 5, 6]⟩ rfl (by decide)

/-- Claim C7: `get_var` and `set_var` raise synchronously, before anything
is sent on any channel, exactly when the runtime has not been started or the
owning service is asynchronous; otherwise they proceed to issue the
`GET_DATA`/`SET_DATA` command. -/
theorem c7_var_access_guards (s : Runtime.RState) (isAsync : Bool)
    (model_id var_id : Int) (x : Runtime.NDArray) :
    ((Runtime.set_var s isAsync model_id var_id x).outcome ≠
        Runtime.VarOutcome.ok ↔ (isAsync = true ∨ s._is_started = false)) ∧
    ((Runtime.set_var s isAsync model_id var_id x).outcome ≠
        Runtime.VarOutcome.ok →
      (Runtime.set_var s isAsync model_id var_id x).sent = []) ∧
    ((Runtime.set_var s isAsync model_id var_id x).outcome =
        Runtime.VarOutcome.ok →
      (Runtime.set_var s isAsync model_id var_id x).sent.head? =
        some MGMT_COMMAND.SET_DATA) ∧
    ((Runtime.get_var_send s isAsync model_id var_id).outcome ≠
        Runtime.VarOutcome.ok ↔ (isAsync = true ∨ s._is_started = false)) ∧
    ((Runtime.get_var_send s isAsync model_id var_id).outcome ≠
        Runtime.VarOutcome.ok →
      (Runtime.get_var_send s isAsync model_id var_id).sent = []) ∧
    ((Runtime.get_var_send s isAsync model_id var_id).outcome =
        Runtime.VarOutcome.ok →
      (Runtime.get_var_send s isAsync model_id var_id).sent =
        [MGMT_COMMAND.GET_DATA, model_id, var_id]) := by
  unfold Runtime.set_var Runtime.get_var_send
  cases isAsync <;> cases hs : s._is_started <;> simp [hs]

/-- Witness for C7: a never-started controller with a synchronous service:
the access is refused with nothing sent. -/
theorem c7_var_access_guards_witness :
    (Runtime.set_var Runtime.rInit false 0 0 ⟨[], []⟩).outcome ≠
        Runtime.VarOutcome.ok ∧
    (Runtime.set_var Runtime.rInit false 0 0 ⟨[], []⟩).sent = [] := by
  have h := c7_var_access_guards Runtime.rInit false 0 0 ⟨[], []⟩
  exact ⟨h.1.mpr (Or.inr rfl), h.2.1 (h.1.mpr (Or.inr rfl))⟩

/-- Claim C8 counterexample: with one worker, after fanning RUN (the run has
not ended) and then draining one worker response, the next `select` of
`AsyncPyRuntimeService.run` waits only on the controller command channel:
no worker response tag is in the rebuilt `channel_actions`, contradicting
"every blocking select in its loop waits simultaneously on the controller
command channel and on every worker response channel". -/
theorem c8_select_drops_worker_channels :
    AsyncPyRuntimeService.ChanTag.resp ∉
      (AsyncPyRuntimeService.asyncStep 1
        (AsyncPyRuntimeService.asyncStep 1 AsyncPyRuntimeService.asyncInit
          (AsyncPyRuntimeService.AEvent.cmdRun MGMT_COMMAND.RUN)).st
        (AsyncPyRuntimeService.AEvent.respDrain
          [AsyncPyRuntimeService.PMResponse.REQ_PAUSE])).channel_actions := by
  decide

/-- Claim C8 as amended: after a run command is fanned, the NEXT select
waits on the controller command channel and on every worker response
channel; but after a worker-response drain the rebuilt `channel_actions`
holds only the controller command channel (worker channels are re-added
only by the next run command).  Worker responses, when drained, are
aggregated into the `REQ_PAUSE`/`REQ_STOP`/error latches as disjunctions,
and after the drain one upward token is sent per latched condition. -/
theorem c8_amended_select_sets (W : Nat) (s : AsyncPyRuntimeService.AState)
    (c : Token) (msgs : List Token) :
    ((AsyncPyRuntimeService.asyncStep W s
        (AsyncPyRuntimeService.AEvent.cmdRun c)).channel_actions =
      List.replicate W AsyncPyRuntimeService.ChanTag.resp ++
        [AsyncPyRuntimeService.ChanTag.cmd]) ∧
    ((AsyncPyRuntimeService.asyncStep W s
        (AsyncPyRuntimeService.AEvent.respDrain msgs)).channel_actions =
      [AsyncPyRuntimeService.ChanTag.cmd]) ∧
    ((AsyncPyRuntimeService.asyncStep W s
        (AsyncPyRuntimeService.AEvent.respDrain msgs)).st =
      AsyncPyRuntimeService.drainFold s msgs) ∧
    ((AsyncPyRuntimeService.asyncStep W s
        (AsyncPyRuntimeService.AEvent.respDrain msgs)).upward =
      (if (AsyncPyRuntimeService.drainFold s msgs).req_stop then
        [MGMT_RESPONSE.REQ_STOP] else []) ++
      (if (AsyncPyRuntimeService.drainFold s msgs).req_pause then
        [MGMT_RESPONSE.REQ_PAUSE] else []) ++
      (if (AsyncPyRuntimeService.drainFold s msgs)._error then
        [MGMT_RESPONSE.ERROR] else [])) := by
  refine ⟨rfl, rfl, rfl, rfl⟩

namespace AsyncPyRuntimeService

/-- Aggregating a single message is the disjunction of the old latches with
the matching token tests. -/
theorem drainFold_single (s : AState) (m : Token) :
    (drainFold s [m]).req_stop = (s.req_stop || decide (m = PMResponse.REQ_STOP)) ∧
    (drainFold s [m]).req_pause = (s.req_pause || decide (m = PMResponse.REQ_PAUSE)) ∧
    (drainFold s [m])._error = (s._error || decide (m = PMResponse.STATUS_ERROR)) := by
  by_cases h1 : m = PMResponse.REQ_PAUSE <;>
    by_cases h2 : m = PMResponse.REQ_STOP <;>
      by_cases h3 : m = PMResponse.STATUS_ERROR <;>
        simp_all [drainFold, PMResponse.REQ_PAUSE, PMResponse.REQ_STOP,
          PMResponse.STATUS_ERROR]

/-- One pass of the aggregation loop computes the disjunction of the old
latches with the latching messages, so latches only ever grow. -/
theorem drainFold_flags (msgs : List Token) :
    ∀ s : AState,
      (drainFold s msgs).req_stop =
        (s.req_stop || msgs.any (fun m => m = PMResponse.REQ_STOP)) ∧
      (drainFold s msgs).req_pause =
        (s.req_pause || msgs.any (fun m => m = PMResponse.REQ_PAUSE)) ∧
      (drainFold s msgs)._error =
        (s._error || msgs.any (fun m => m = PMResponse.STATUS_ERROR)) := by
  induction msgs with
  | nil => intro s; simp [drainFold]
  | cons m rest ih =>
    intro s
    have step : drainFold s (m :: rest) =
        drainFold (drainFold s [m]) rest := by
      simp [drainFold]
    rw [step]
    obtain ⟨h1, h2, h3⟩ := ih (drainFold s [m])
    obtain ⟨g1, g2, g3⟩ := drainFold_single s m
    refine ⟨?_, ?_, ?_⟩
    · rw [h1, g1]
      simp [List.any_cons, Bool.or_assoc]
    · rw [h2, g2]
      simp [List.any_cons, Bool.or_assoc]
    · rw [h3, g3]
      simp [List.any_cons, Bool.or_assoc]

end AsyncPyRuntimeService

/-- Claim C9: the async service's `req_pause`, `req_stop` and `_error`
latches are never reset by any event of the `run` loop, and any
worker-response drain performed while a latch is set sends the
corresponding upward token again, whatever the drained messages are. -/
theorem c9_async_latches_never_reset (W : Nat)
    (s : AsyncPyRuntimeService.AState) (ev : AsyncPyRuntimeService.AEvent)
    (msgs : List Token) :
    (s.req_stop = true →
      (AsyncPyRuntimeService.asyncStep W s ev).st.req_stop = true) ∧
    (s.req_pause = true →
      (AsyncPyRuntimeService.asyncStep W s ev).st.req_pause = true) ∧
    (s._error = true →
      (AsyncPyRuntimeService.asyncStep W s ev).st._error = true) ∧
    (s.req_stop = true →
      MGMT_RESPONSE.REQ_STOP ∈ (AsyncPyRuntimeService.asyncStep W s
        (AsyncPyRuntimeService.AEvent.respDrain msgs)).upward) ∧
    (s.req_pause = true →
      MGMT_RESPONSE.REQ_PAUSE ∈ (AsyncPyRuntimeService.asyncStep W s
        (AsyncPyRuntimeService.AEvent.respDrain msgs)).upward) ∧
    (s._error = true →
      MGMT_RESPONSE.ERROR ∈ (AsyncPyRuntimeService.asyncStep W s
        (AsyncPyRuntimeService.AEvent.respDrain msgs)).upward) := by
  obtain ⟨hs, hp, he⟩ := AsyncPyRuntimeService.drainFold_flags msgs s
  cases ev with
  | cmdStop r =>
    refine ⟨?_, ?_, ?_, ?_, ?_, ?_⟩ <;> intro h <;>
      simp_all [AsyncPyRuntimeService.asyncStep, MGMT_RESPONSE.REQ_STOP,
        MGMT_RESPONSE.REQ_PAUSE, MGMT_RESPONSE.ERROR] <;> split <;> simp_all
  | cmdPause =>
    refine ⟨?_, ?_, ?_, ?_, ?_, ?_⟩ <;> intro h <;>
      simp_all [AsyncPyRuntimeService.asyncStep]
  | cmdRun c =>
    refine ⟨?_, ?_, ?_, ?_, ?_, ?_⟩ <;> intro h <;>
      simp_all [AsyncPyRuntimeService.asyncStep]
  | respDrain m =>
    obtain ⟨hs2, hp2, he2⟩ := AsyncPyRuntimeService.drainFold_flags m s
    refine ⟨?_, ?_, ?_, ?_, ?_, ?_⟩ <;> intro h <;>
      simp_all [AsyncPyRuntimeService.asyncStep]

/-- Witness for C9: all three latches set, a drain of a lone `STATUS_DONE`
still leaves them set. -/
theorem c9_async_latches_never_reset_witness :
    (AsyncPyRuntimeService.asyncStep 1 ⟨true, true, true⟩
      (AsyncPyRuntimeService.AEvent.respDrain
        [AsyncPyRuntimeService.PMResponse.STATUS_DONE])).st.req_stop = true ∧
    MGMT_RESPONSE.REQ_STOP ∈ (AsyncPyRuntimeService.asyncStep 1
      ⟨true, true, true⟩ (AsyncPyRuntimeService.AEvent.respDrain
        [AsyncPyRuntimeService.PMResponse.STATUS_DONE])).upward := by
  have h := c9_async_latches_never_reset 1 ⟨true, true, true⟩
    (AsyncPyRuntimeService.AEvent.respDrain
      [AsyncPyRuntimeService.PMResponse.STATUS_DONE])
    [AsyncPyRuntimeService.PMResponse.STATUS_DONE]
  exact ⟨h.1 rfl, h.2.2.2.1 rfl⟩

/-- Claim C10: calling `stop()` on a `Runtime` whose `initialize()` never
ran is not a clean no-op: the try-block prints "Runtime not started yet.",
and the guaranteed-release block then dereferences the still-`None`
messaging-infrastructure handle, so the call fails with an attribute error
and the infrastructure's `stop()` is never invoked. -/
theorem c10_stop_before_init_attribute_error :
    (Runtime.stop Runtime.rInit []).printedNotStarted = true ∧
    (Runtime.stop Runtime.rInit []).raisedAttr = true ∧
    (Runtime.stop Runtime.rInit []).infraStopCalled = false ∧
    (Runtime.stop Runtime.rInit []).sentStopToAll = false := by
  decide
